import Mathlib

/-!
Verification of the movietrend CLI streaming client (src/main.py) against its
natural-language specification.  The Python source is shallowly embedded:
network calls become explicit oracle parameters (the parsed payload or a
failure marker), user prompts become explicit answer parameters, and Python
exceptions that escape a function are modelled with `Except`.
-/

namespace MovieTrend

deriving instance DecidableEq for Except

/-- Embedding of MIN_SEEDERS_THRESHOLD = 5 (main.py line 28). -/
def MIN_SEEDERS_THRESHOLD : Int := 5

/-- Embedding of Python's {:02d} format: zero-pad a natural number to (at
least) two digits. -/
def pad2 (n : Nat) : String :=
  if n < 10 then "0" ++ toString n else toString n

/-- Python truthiness of an optional integer argument: None and 0 are falsy,
every other integer is truthy.  Used because main.py line 99 tests
season/episode with plain `if season and episode:`. -/
def truthy : Option Nat → Bool
  | none => false
  | some n => n != 0

/-- Embedding of the query-string construction at the top of get_torrents
(main.py lines 99-102): append " SxxEyy" when both season and episode are
truthy, " Sxx" when only the season is truthy, else leave the title bare. -/
def getTorrentsQuery (title : String) (season episode : Option Nat) : String :=
  if truthy season && truthy episode then
    title ++ " S" ++ pad2 (season.getD 0) ++ "E" ++ pad2 (episode.getD 0)
  else if truthy season then
    title ++ " S" ++ pad2 (season.getD 0)
  else
    title

/-- The query-string format as the spec states it (§3 SearchQuery): the tagged
forms are used whenever the optional fields are present, with no special case
for zero. -/
def specQuery (title : String) : Option Nat → Option Nat → String
  | some s, some e => title ++ " S" ++ pad2 s ++ "E" ++ pad2 e
  | some s, none => title ++ " S" ++ pad2 s
  | none, _ => title

/-- One episode record of a season, as read from the catalog payload
(only the "number" field is consumed by main.py). -/
structure Episode where
  number : Nat
deriving DecidableEq

/-- One season record, as read from the catalog payload.  `episode_count`
holds the value of the Python read `season.get("episode_count", 0)`, so a
missing field is represented by 0. -/
structure Season where
  number : Nat
  episode_count : Nat
deriving DecidableEq

/-- Embedding of fetch_next_episode (main.py lines 349-364).  The two catalog
fetches become parameters: `episodes` is what fetch_season_episodes returns
for the current season and `seasons` what fetch_show_seasons returns.  The
Python code returns None as soon as `episodes` is empty; otherwise it scans
for episode number current+1, then for season current+1 with a nonzero
episode count. -/
def fetch_next_episode (episodes : List Episode) (seasons : List Season)
    (currentSeason currentEpisode : Nat) : Option (Nat × Nat) :=
  if episodes.isEmpty then none
  else if episodes.any (fun ep => ep.number == currentEpisode + 1) then
    some (currentSeason, currentEpisode + 1)
  else if seasons.any (fun s => s.number == currentSeason + 1 && decide (0 < s.episode_count)) then
    some (currentSeason + 1, 1)
  else
    none

/-- Next-episode resolution in the words of the spec (§4.4): look for episode
current+1 in the current season's episode list; if absent, look for season
current+1 with nonzero episode count; else no next episode.  The spec has no
special case for an empty episode list. -/
def specNextEpisode (episodes : List Episode) (seasons : List Season)
    (currentSeason currentEpisode : Nat) : Option (Nat × Nat) :=
  if episodes.any (fun ep => ep.number == currentEpisode + 1) then
    some (currentSeason, currentEpisode + 1)
  else if seasons.any (fun s => s.number == currentSeason + 1 && decide (0 < s.episode_count)) then
    some (currentSeason + 1, 1)
  else
    none

/-- A normalized torrent candidate as built by the provider fetches
(main.py lines 112-117 and 143-148).  The magnet is optional because the YTS
path reads it with `.get("url")`, which yields None when the field is
missing. -/
structure Candidate where
  magnet : Option String
  source : String
  seeders : Int
  name : String
deriving DecidableEq

/-- Python exceptions that can escape the payload-processing code of the
provider fetches (they are not RequestException, so the except clauses at
main.py lines 122 and 157 do not catch them). -/
inductive PyError where
  | keyError
  | valueError
deriving DecidableEq

/-- One raw record of the apibay JSON payload.  Every field is optional: the
code reads "id" and "seeders" with `.get` (missing tolerated) but indexes
"info_hash" and "name" directly (missing raises KeyError).  Apibay serves
"seeders" as a decimal string, which the code passes through int(). -/
structure TorRecord where
  id : Option String
  info_hash : Option String
  name : Option String
  seeders : Option String
deriving DecidableEq

/-- Accumulating decimal parser over the characters of a numeral. -/
def parseDigitsAux : List Char → Nat → Option Nat
  | [], acc => some acc
  | c :: cs, acc =>
    if c.isDigit then parseDigitsAux cs (acc * 10 + (c.toNat - 48)) else none

/-- Model of Python int() applied to the decimal numeral strings apibay
serves in its "seeders" field: an optional sign followed by digits parses,
anything else raises ValueError (modelled as none). -/
def strToInt (s : String) : Option Int :=
  match s.data with
  | [] => none
  | '-' :: cs =>
    match cs with
    | [] => none
    | _ :: _ => (parseDigitsAux cs 0).map (fun n => -(n : Int))
  | cs => (parseDigitsAux cs 0).map (fun n => (n : Int))

/-- Embedding of `int(t.get("seeders", 0))`: a missing field defaults to 0,
a numeric string parses, anything else raises ValueError. -/
def seedersVal (t : TorRecord) : Except PyError Int :=
  match t.seeders with
  | none => Except.ok 0
  | some s =>
    match strToInt s with
    | some n => Except.ok n
    | none => Except.error PyError.valueError

/-- Embedding of the dict built for one viable apibay record (main.py lines
112-117): the magnet f-string indexes info_hash and name directly (KeyError
when missing, raised before the seeders value is parsed again). -/
def apibayCandidate (t : TorRecord) : Except PyError Candidate :=
  match t.info_hash, t.name with
  | some ih, some nm =>
    match seedersVal t with
    | Except.ok sd =>
      Except.ok { magnet := some ("magnet:?xt=urn:btih:" ++ ih ++ "&dn=" ++ nm),
                  source := "Apibay", seeders := sd, name := nm }
    | Except.error e => Except.error e
  | _, _ => Except.error PyError.keyError

/-- Embedding of the list comprehension at main.py lines 111-119: keep, in
order, every record whose parsed seeder count reaches the threshold, building
the candidate dict for exactly those records; the first exception aborts the
whole comprehension. -/
def buildViable : List TorRecord → Except PyError (List Candidate)
  | [] => Except.ok []
  | t :: ts =>
    match seedersVal t with
    | Except.error e => Except.error e
    | Except.ok sd =>
      if MIN_SEEDERS_THRESHOLD ≤ sd then
        match apibayCandidate t with
        | Except.error e => Except.error e
        | Except.ok c =>
          match buildViable ts with
          | Except.error e => Except.error e
          | Except.ok rest => Except.ok (c :: rest)
      else
        buildViable ts

/-- Comparison used by `list.sort(key=lambda x: x["seeders"], reverse=True)`:
descending by seeder count. -/
def seedersGe (a b : Candidate) : Prop :=
  b.seeders ≤ a.seeders

instance : DecidableRel seedersGe :=
  fun a b => Int.decLe b.seeders a.seeders

instance : IsTotal Candidate seedersGe :=
  ⟨fun a b => le_total b.seeders a.seeders⟩

instance : IsTrans Candidate seedersGe :=
  ⟨fun _ _ _ h1 h2 => le_trans h2 h1⟩

/-- Stable sort of candidates by seeders descending (main.py lines 120, 150).
Python's list.sort is stable, so it is modelled by a stable sort; a stable
sort's output is uniquely determined by the (total, transitive) comparison
and the input order, so insertion sort returns exactly the list the Python
code builds. -/
def sortBySeedersDesc (l : List Candidate) : List Candidate :=
  l.insertionSort seedersGe

/-- Embedding of the body of get_torrents after a successful HTTP round trip
(main.py lines 107-121): empty payload or the "id" == "0" sentinel in the
first record yields no candidates; otherwise filter by seeders, sort
descending and keep at most 5. -/
def apibayProcess (payload : List TorRecord) : Except PyError (List Candidate) :=
  match payload with
  | [] => Except.ok []
  | t0 :: _ =>
    if t0.id == some "0" then Except.ok []
    else
      match buildViable payload with
      | Except.error e => Except.error e
      | Except.ok viable => Except.ok ((sortBySeedersDesc viable).take 5)

/-- Outcome of one requests.get call, as seen by the caller: a parsed payload,
an HTTP error status (raise_for_status raises RequestException), or any other
RequestException (timeout, connection failure, JSON decode failure). -/
inductive HttpOutcome (α : Type) where
  | ok (payload : α)
  | httpError (status : Nat)
  | networkError
deriving DecidableEq

/-- Embedding of get_torrents (main.py lines 98-124) as a function of the HTTP
outcome: every RequestException is caught and becomes an empty list, while
payload-processing exceptions (modelled by `Except.error`) escape. -/
def get_torrents (resp : HttpOutcome (List TorRecord)) : Except PyError (List Candidate) :=
  match resp with
  | HttpOutcome.ok payload => apibayProcess payload
  | HttpOutcome.httpError _ => Except.ok []
  | HttpOutcome.networkError => Except.ok []

/-- One raw torrent record of the YTS payload: "url", "seeds" and "quality"
are all read with `.get`, so missing fields are tolerated (seeds defaults
to 0, url to None, quality renders as "None"). -/
structure YtsTorrent where
  url : Option String
  seeds : Option Int
  quality : Option String
deriving DecidableEq

/-- One movie of the YTS payload.  `torrents` holds the value of the read
`movie.get("torrents", [])`; "title" is indexed directly, so a missing title
raises KeyError. -/
structure YtsMovie where
  title : Option String
  torrents : List YtsTorrent
deriving DecidableEq

/-- Rendering of an optional string in a Python f-string: None prints as
"None". -/
def optStr : Option String → String
  | none => "None"
  | some s => s

/-- Embedding of the dict appended for one viable YTS torrent (main.py lines
143-148); movie["title"] is indexed directly inside the f-string. -/
def ytsCandidateOf (m : YtsMovie) (t : YtsTorrent) : Except PyError Candidate :=
  match m.title with
  | none => Except.error PyError.keyError
  | some title =>
    Except.ok { magnet := t.url, source := "YTS", seeders := t.seeds.getD 0,
                name := title ++ " (" ++ optStr t.quality ++ ")" }

/-- Inner loop of get_yts_torrents over one movie's torrent list (main.py
lines 140-148). -/
def ytsBuildMovie (m : YtsMovie) : List YtsTorrent → Except PyError (List Candidate)
  | [] => Except.ok []
  | t :: ts =>
    if MIN_SEEDERS_THRESHOLD ≤ t.seeds.getD 0 then
      match ytsCandidateOf m t with
      | Except.error e => Except.error e
      | Except.ok c =>
        match ytsBuildMovie m ts with
        | Except.error e => Except.error e
        | Except.ok rest => Except.ok (c :: rest)
    else
      ytsBuildMovie m ts

/-- Outer loop of get_yts_torrents over the movie list (main.py lines
139-148). -/
def ytsBuild : List YtsMovie → Except PyError (List Candidate)
  | [] => Except.ok []
  | m :: ms =>
    match ytsBuildMovie m m.torrents with
    | Except.error e => Except.error e
    | Except.ok cs =>
      match ytsBuild ms with
      | Except.error e => Except.error e
      | Except.ok rest => Except.ok (cs ++ rest)

/-- Embedding of get_yts_torrents (main.py lines 127-159) as a function of the
HTTP outcome.  The payload parameter is the movie list read by
`data.get("data", {}).get("movies", [])` (missing nesting reads as []).
An empty movie list returns [] early; otherwise filter, sort descending and
keep at most 5 (the empty-torrents else branch also returns []). -/
def get_yts_torrents (resp : HttpOutcome (List YtsMovie)) : Except PyError (List Candidate) :=
  match resp with
  | HttpOutcome.ok movies =>
    if movies.isEmpty then Except.ok []
    else
      match ytsBuild movies with
      | Except.error e => Except.error e
      | Except.ok torrents => Except.ok ((sortBySeedersDesc torrents).take 5)
  | HttpOutcome.httpError _ => Except.ok []
  | HttpOutcome.networkError => Except.ok []

/-- A record whose processing by the apibay comprehension cannot raise:
info_hash and name are present and the seeders field, when present, parses as
an integer. -/
def wellFormedRec (t : TorRecord) : Bool :=
  t.info_hash.isSome && t.name.isSome &&
    (match t.seeders with
     | none => true
     | some s => (strToInt s).isSome)

/-- One HTTP request against a transport oracle: the embedding of a single
requests.get call, returning the response together with the next request
index (so the second component of a fetch below counts the requests it
issued). -/
def httpGet {α : Type} (transport : Nat → HttpOutcome α) (k : Nat) : HttpOutcome α × Nat :=
  (transport k, k + 1)

/-- Embedding of a whole get_torrents fetch against a transport: main.py line
105 performs exactly one requests.get, with no retry loop, so one request is
consumed whatever the response (including 429 and 5xx statuses). -/
def apibayFetch (transport : Nat → HttpOutcome (List TorRecord)) :
    Except PyError (List Candidate) × Nat :=
  let r := httpGet transport 0
  (get_torrents r.1, r.2)

/-- Embedding of a whole get_yts_torrents fetch against a transport: main.py
line 130 performs exactly one requests.get, with no retry loop. -/
def ytsFetch (transport : Nat → HttpOutcome (List YtsMovie)) :
    Except PyError (List Candidate) × Nat :=
  let r := httpGet transport 0
  (get_yts_torrents r.1, r.2)

/-- Embedding of fetch_show_seasons (main.py lines 39-49) against a transport:
one requests.get, any RequestException becomes []. -/
def fetch_show_seasons_http (transport : Nat → HttpOutcome (List Season)) :
    List Season × Nat :=
  let r := httpGet transport 0
  (match r.1 with
   | HttpOutcome.ok s => s
   | HttpOutcome.httpError _ => []
   | HttpOutcome.networkError => [], r.2)

/-- Embedding of fetch_season_episodes (main.py lines 52-62) against a
transport: one requests.get, any RequestException becomes []. -/
def fetch_season_episodes_http (transport : Nat → HttpOutcome (List Episode)) :
    List Episode × Nat :=
  let r := httpGet transport 0
  (match r.1 with
   | HttpOutcome.ok s => s
   | HttpOutcome.httpError _ => []
   | HttpOutcome.networkError => [], r.2)

/-- Bool-valued substring test on character lists. -/
def hasSub (pat : List Char) : List Char → Bool
  | [] => pat.isEmpty
  | c :: rest => pat.isPrefixOf (c :: rest) || hasSub pat rest

/-- ASCII lower-casing of one character (the resolution tokens and release
names the spec discusses are ASCII). -/
def lowerChar (c : Char) : Char :=
  if 65 ≤ c.toNat ∧ c.toNat ≤ 90 then Char.ofNat (c.toNat + 32) else c

/-- Case-insensitive substring search, the comparison the spec requires for
resolution tokens. -/
def containsTok (name tok : String) : Bool :=
  hasSub (tok.data.map lowerChar) (name.data.map lowerChar)

/-- Modelled from the spec: the repository source (src/main.py) contains no
Scoring Engine at all, so the quality sub-score of §4.1 is modelled from the
spec's words: case-insensitive substring checks in descending priority,
"4k"/"2160p" scoring 1.0, else "1080p" scoring 0.8, else "720p" scoring 0.6,
else 0.3, first match winning. -/
def quality (name : String) : Rat :=
  if containsTok name "4k" || containsTok name "2160p" then 1
  else if containsTok name "1080p" then 0.8
  else if containsTok name "720p" then 0.6
  else 0.3

/-- A provider query event: which torrent index was asked and with which query
string. -/
inductive ProviderQuery where
  | apibay (q : String)
  | yts (q : String)
deriving DecidableEq

/-- Recognizer of secondary-provider (YTS) query events. -/
def isYts : ProviderQuery → Bool
  | ProviderQuery.yts _ => true
  | ProviderQuery.apibay _ => false

/-- Outcome of the subprocess.run peerflix launch: normal exit, a
FileNotFoundError (peerflix executable missing), or a CalledProcessError. -/
inductive LaunchResult where
  | success
  | missingExecutable
  | processError
deriving DecidableEq

/-- Oracles consumed by the movie branch of play_content (main.py lines
181-238): the two provider results for the title, the user's torrent pick in
each selection prompt (none models choosing "None"), and the launch outcome of
each peerflix invocation. -/
structure MovieEnv where
  apibayResult : List Candidate
  ytsResult : List Candidate
  pickApibay : Option Candidate
  pickYts : Option Candidate
  launchApibay : LaunchResult
  launchYts : LaunchResult
deriving DecidableEq

/-- Provider-query trace of the movie branch of play_content (main.py lines
181-238).  Apibay is always queried first (line 184).  The YTS fallback
(line 212, a single get_yts_torrents call with the same title, after which no
further provider query happens) is reached when apibay returned nothing, when
the user picked "None (Try YTS)", or when the apibay launch raised
FileNotFoundError; a successful launch and a CalledProcessError both return
(lines 203, 208). -/
def playMovieQueries (title : String) (env : MovieEnv) : List ProviderQuery :=
  ProviderQuery.apibay title ::
    (if env.apibayResult.isEmpty then [ProviderQuery.yts title]
     else
       match env.pickApibay with
       | none => [ProviderQuery.yts title]
       | some _ =>
         match env.launchApibay with
         | LaunchResult.success => []
         | LaunchResult.missingExecutable => [ProviderQuery.yts title]
         | LaunchResult.processError => [])

/-- Result of one iteration of the show playback loop: continue with a new
(season, episode) pair, or leave the loop (both break paths at main.py lines
345-346 and every return path end the playback session). -/
inductive StepOutcome where
  | next (season episode : Nat)
  | stop
deriving DecidableEq

/-- Oracles consumed by one iteration of the show playback inner loop
(main.py lines 289-345): the apibay result for the current episode query, the
user's torrent pick, the launch outcome, the catalog data used by
fetch_next_episode, and the two continue-prompt answers ("Play next episode?"
defaults to yes at line 324, "No torrent found. Try next episode?" defaults
to no at line 340). -/
structure ShowEnv where
  torrents : List Candidate
  pick : Option Candidate
  launch : LaunchResult
  episodes : List Episode
  seasons : List Season
  answerAfterSuccess : Bool
  answerAfterFail : Bool
deriving DecidableEq

/-- The shared tail of the loop body (main.py lines 333-345), reached when no
torrent was found, when the user picked "None", and — because the except
clauses at lines 312-315 fall through — after FileNotFoundError and
CalledProcessError: resolve the next episode and continue only when one
exists and the user answers yes. -/
def failAdvance (season episode : Nat) (env : ShowEnv) : StepOutcome :=
  match fetch_next_episode env.episodes env.seasons season episode with
  | some (s, e) => if env.answerAfterFail then StepOutcome.next s e else StepOutcome.stop
  | none => StepOutcome.stop

/-- One iteration of the show playback inner loop (main.py lines 289-345). -/
def showStep (season episode : Nat) (env : ShowEnv) : StepOutcome :=
  if env.torrents.isEmpty then failAdvance season episode env
  else
    match env.pick with
    | none => failAdvance season episode env
    | some _ =>
      match env.launch with
      | LaunchResult.success =>
        match fetch_next_episode env.episodes env.seasons season episode with
        | some (s, e) =>
          if env.answerAfterSuccess then StepOutcome.next s e else StepOutcome.stop
        | none => StepOutcome.stop
      | LaunchResult.missingExecutable => failAdvance season episode env
      | LaunchResult.processError => failAdvance season episode env

/-- Provider-query trace of the show playback loop, driven by a per-state
oracle and a fuel bound on the number of iterations.  Each iteration performs
exactly one get_torrents call (main.py line 292) with the season/episode
query; the show branch contains no get_yts_torrents call (the season and
episode selection code above the loop performs only catalog calls). -/
def playShowQueries (title : String) (envAt : Nat → Nat → ShowEnv) :
    Nat → Nat → Nat → List ProviderQuery
  | 0, _, _ => []
  | fuel + 1, season, episode =>
    ProviderQuery.apibay (getTorrentsQuery title (some season) (some episode)) ::
      (match showStep season episode (envAt season episode) with
       | StepOutcome.next s e => playShowQueries title envAt fuel s e
       | StepOutcome.stop => [])

/-- A well-formed apibay record with the given seeders string. -/
def sampleRec (s : String) : TorRecord :=
  ⟨none, some "h", some "n", some s⟩

/-- Six viable apibay records: five with 10 seeders and one with exactly the
threshold value of 5. -/
def samplePayload : List TorRecord :=
  [sampleRec "10", sampleRec "10", sampleRec "10", sampleRec "10",
   sampleRec "10", sampleRec "5"]

/-- The candidate built from a 10-seeder sample record. -/
def sampleCand10 : Candidate :=
  ⟨some "magnet:?xt=urn:btih:h&dn=n", "Apibay", 10, "n"⟩

/-- The candidate built from the at-threshold sample record. -/
def sampleCand5 : Candidate :=
  ⟨some "magnet:?xt=urn:btih:h&dn=n", "Apibay", 5, "n"⟩

/-- The viable list the comprehension builds from samplePayload. -/
def sampleViable : List Candidate :=
  [sampleCand10, sampleCand10, sampleCand10, sampleCand10, sampleCand10, sampleCand5]

/-- The list get_torrents actually returns for samplePayload. -/
def sampleKept : List Candidate :=
  [sampleCand10, sampleCand10, sampleCand10, sampleCand10, sampleCand10]

/-- A well-formed YTS torrent record. -/
def sampleYtsTorrent : YtsTorrent :=
  ⟨some "u", some 50, some "1080p"⟩

/-- A well-formed YTS movie with one viable torrent. -/
def sampleYtsMovie : YtsMovie :=
  ⟨some "M", [sampleYtsTorrent]⟩

/-- The candidate built from sampleYtsMovie. -/
def sampleYtsCand : Candidate :=
  ⟨some "u", "YTS", 50, "M (1080p)"⟩

/-- An apibay record with 100 seeders but no info_hash field. -/
def badApibayRecord : TorRecord :=
  ⟨none, none, some "X", some "100"⟩

/-- A YTS movie with a viable torrent but no title field. -/
def badYtsMovie : YtsMovie :=
  ⟨none, [sampleYtsTorrent]⟩

/-- A generic viable candidate. -/
def sampleCand : Candidate :=
  ⟨some "m", "Apibay", 10, "x"⟩

/-- A show-loop oracle: a torrent is found and picked, the launch fails with
FileNotFoundError, season 1 has episodes 1-4, and the user answers yes to
both continue prompts. -/
def sampleShowEnv : ShowEnv :=
  ⟨[sampleCand], some sampleCand, LaunchResult.missingExecutable,
   [⟨1⟩, ⟨2⟩, ⟨3⟩, ⟨4⟩], [], true, true⟩

/-- A movie-branch oracle where apibay returns nothing. -/
def sampleMovieEnv : MovieEnv :=
  ⟨[], [sampleYtsCand], none, none, LaunchResult.success, LaunchResult.success⟩

lemma apibayCandidate_seeders {t : TorRecord} {sd : Int} {c : Candidate}
    (h1 : seedersVal t = Except.ok sd) (h2 : apibayCandidate t = Except.ok c) :
    c.seeders = sd := by
  unfold apibayCandidate at h2
  cases hih : t.info_hash with
  | none => rw [hih] at h2; exact absurd h2 (by simp)
  | some ih =>
    cases hnm : t.name with
    | none => rw [hih, hnm] at h2; exact absurd h2 (by simp)
    | some nm =>
      rw [hih, hnm, h1] at h2
      cases h2
      rfl

lemma buildViable_seeders_ge {payload : List TorRecord} {v : List Candidate}
    (h : buildViable payload = Except.ok v) :
    ∀ c ∈ v, MIN_SEEDERS_THRESHOLD ≤ c.seeders := by
  induction payload generalizing v with
  | nil =>
    intro c hc
    unfold buildViable at h
    cases h
    simp at hc
  | cons t ts ih =>
    intro c hc
    unfold buildViable at h
    cases hsv : seedersVal t with
    | error e => rw [hsv] at h; exact absurd h (by simp)
    | ok sd =>
      rw [hsv] at h
      dsimp only at h
      by_cases hge : MIN_SEEDERS_THRESHOLD ≤ sd
      · rw [if_pos hge] at h
        cases hac : apibayCandidate t with
        | error e => rw [hac] at h; exact absurd h (by simp)
        | ok c0 =>
          rw [hac] at h
          cases hrest : buildViable ts with
          | error e => rw [hrest] at h; exact absurd h (by simp)
          | ok rest =>
            rw [hrest] at h
            cases h
            rcases List.mem_cons.mp hc with hceq | hcmem
            · subst hceq
              rw [apibayCandidate_seeders hsv hac]
              exact hge
            · exact ih hrest c hcmem
      · rw [if_neg hge] at h
        exact ih h c hc

lemma buildViable_mem {payload : List TorRecord} {v : List Candidate}
    {t : TorRecord} {sd : Int} {c : Candidate}
    (h : buildViable payload = Except.ok v) (ht : t ∈ payload)
    (hsd : seedersVal t = Except.ok sd) (hge : MIN_SEEDERS_THRESHOLD ≤ sd)
    (hc : apibayCandidate t = Except.ok c) :
    c ∈ v := by
  induction payload generalizing v with
  | nil => simp at ht
  | cons t0 ts ih =>
    unfold buildViable at h
    cases hsv : seedersVal t0 with
    | error e => rw [hsv] at h; exact absurd h (by simp)
    | ok sd0 =>
      rw [hsv] at h
      dsimp only at h
      by_cases hge0 : MIN_SEEDERS_THRESHOLD ≤ sd0
      · rw [if_pos hge0] at h
        cases hac : apibayCandidate t0 with
        | error e => rw [hac] at h; exact absurd h (by simp)
        | ok c0 =>
          rw [hac] at h
          cases hrest : buildViable ts with
          | error e => rw [hrest] at h; exact absurd h (by simp)
          | ok rest =>
            rw [hrest] at h
            cases h
            rcases List.mem_cons.mp ht with hteq | htmem
            · subst hteq
              rw [hc] at hac
              cases hac
              exact List.mem_cons_self _ _
            · exact List.mem_cons_of_mem _ (ih hrest htmem)
      · rw [if_neg hge0] at h
        rcases List.mem_cons.mp ht with hteq | htmem
        · subst hteq
          rw [hsd] at hsv
          cases hsv
          exact absurd hge hge0
        · exact ih h htmem

lemma ytsBuildMovie_seeders_ge {m : YtsMovie} {ts : List YtsTorrent}
    {v : List Candidate} (h : ytsBuildMovie m ts = Except.ok v) :
    ∀ c ∈ v, MIN_SEEDERS_THRESHOLD ≤ c.seeders := by
  induction ts generalizing v with
  | nil =>
    intro c hc
    unfold ytsBuildMovie at h
    cases h
    simp at hc
  | cons t ts ih =>
    intro c hc
    unfold ytsBuildMovie at h
    by_cases hge : MIN_SEEDERS_THRESHOLD ≤ t.seeds.getD 0
    · rw [if_pos hge] at h
      cases hyc : ytsCandidateOf m t with
      | error e => rw [hyc] at h; exact absurd h (by simp)
      | ok c0 =>
        rw [hyc] at h
        cases hrest : ytsBuildMovie m ts with
        | error e => rw [hrest] at h; exact absurd h (by simp)
        | ok rest =>
          rw [hrest] at h
          cases h
          rcases List.mem_cons.mp hc with hceq | hcmem
          · subst hceq
            unfold ytsCandidateOf at hyc
            cases htt : m.title with
            | none => rw [htt] at hyc; exact absurd hyc (by simp)
            | some title =>
              rw [htt] at hyc
              cases hyc
              exact hge
          · exact ih hrest c hcmem
    · rw [if_neg hge] at h
      exact ih h c hc

lemma ytsBuild_seeders_ge {movies : List YtsMovie} {v : List Candidate}
    (h : ytsBuild movies = Except.ok v) :
    ∀ c ∈ v, MIN_SEEDERS_THRESHOLD ≤ c.seeders := by
  induction movies generalizing v with
  | nil =>
    intro c hc
    unfold ytsBuild at h
    cases h
    simp at hc
  | cons m ms ih =>
    intro c hc
    unfold ytsBuild at h
    cases hm : ytsBuildMovie m m.torrents with
    | error e => rw [hm] at h; exact absurd h (by simp)
    | ok cs =>
      rw [hm] at h
      cases hms : ytsBuild ms with
      | error e => rw [hms] at h; exact absurd h (by simp)
      | ok rest =>
        rw [hms] at h
        cases h
        rcases List.mem_append.mp hc with hcl | hcr
        · exact ytsBuildMovie_seeders_ge hm c hcl
        · exact ih hms c hcr

lemma sortBySeedersDesc_pairwise (l : List Candidate) :
    (sortBySeedersDesc l).Pairwise seedersGe :=
  List.sorted_insertionSort seedersGe l

lemma sortBySeedersDesc_perm (l : List Candidate) :
    List.Perm (sortBySeedersDesc l) l :=
  List.perm_insertionSort seedersGe l

lemma pairwise_take_drop {α : Type} {R : α → α → Prop} {l : List α}
    (h : l.Pairwise R) (n : Nat) :
    ∀ x ∈ l.take n, ∀ y ∈ l.drop n, R x y := by
  have hsplit : l.take n ++ l.drop n = l := List.take_append_drop n l
  rw [← hsplit] at h
  exact (List.pairwise_append.mp h).2.2

lemma get_torrents_ok_cases {resp : HttpOutcome (List TorRecord)}
    {L : List Candidate} (h : get_torrents resp = Except.ok L) :
    L = [] ∨ ∃ payload viable, resp = HttpOutcome.ok payload ∧
      buildViable payload = Except.ok viable ∧
      L = (sortBySeedersDesc viable).take 5 := by
  cases resp with
  | httpError s => left; cases h; rfl
  | networkError => left; cases h; rfl
  | ok payload =>
    unfold get_torrents apibayProcess at h
    dsimp only at h
    cases payload with
    | nil => left; cases h; rfl
    | cons t0 ts =>
      dsimp only at h
      by_cases hid : (t0.id == some "0") = true
      · rw [if_pos hid] at h; left; cases h; rfl
      · rw [if_neg hid] at h
        cases hbv : buildViable (t0 :: ts) with
        | error e => rw [hbv] at h; exact absurd h (by simp)
        | ok viable =>
          rw [hbv] at h
          cases h
          exact Or.inr ⟨t0 :: ts, viable, rfl, hbv, rfl⟩

lemma get_yts_torrents_ok_cases {resp : HttpOutcome (List YtsMovie)}
    {M : List Candidate} (h : get_yts_torrents resp = Except.ok M) :
    M = [] ∨ ∃ movies torrents, resp = HttpOutcome.ok movies ∧
      ytsBuild movies = Except.ok torrents ∧
      M = (sortBySeedersDesc torrents).take 5 := by
  cases resp with
  | httpError s => left; cases h; rfl
  | networkError => left; cases h; rfl
  | ok movies =>
    unfold get_yts_torrents at h
    dsimp only at h
    by_cases hemp : movies.isEmpty = true
    · rw [if_pos hemp] at h; left; cases h; rfl
    · rw [if_neg hemp] at h
      cases hbv : ytsBuild movies with
      | error e => rw [hbv] at h; exact absurd h (by simp)
      | ok torrents =>
        rw [hbv] at h
        cases h
        exact Or.inr ⟨movies, torrents, rfl, hbv, rfl⟩

lemma take5_sorted_spec (v : List Candidate) :
    ((sortBySeedersDesc v).take 5).length ≤ 5 ∧
    (∀ x ∈ (sortBySeedersDesc v).take 5, x ∈ v) ∧
    ∀ x ∈ (sortBySeedersDesc v).take 5, ∀ y ∈ v,
      y ∉ (sortBySeedersDesc v).take 5 → y.seeders ≤ x.seeders := by
  refine ⟨?_, ?_, ?_⟩
  · rw [List.length_take]
    exact min_le_left _ _
  · intro x hx
    exact (sortBySeedersDesc_perm v).mem_iff.mp (List.mem_of_mem_take hx)
  · intro x hx y hy hyn
    have hy' : y ∈ sortBySeedersDesc v := (sortBySeedersDesc_perm v).mem_iff.mpr hy
    have hy2 : y ∈ (sortBySeedersDesc v).take 5 ∨ y ∈ (sortBySeedersDesc v).drop 5 := by
      rw [← List.mem_append, List.take_append_drop]
      exact hy'
    rcases hy2 with hy3 | hy3
    · exact absurd hy3 hyn
    · exact pairwise_take_drop (sortBySeedersDesc_pairwise v) 5 x hx y hy3

lemma seedersVal_wf_ok {t : TorRecord} (h : wellFormedRec t = true) :
    ∃ sd, seedersVal t = Except.ok sd := by
  unfold wellFormedRec at h
  cases hs : t.seeders with
  | none => exact ⟨0, by simp [seedersVal, hs]⟩
  | some s =>
    rw [hs] at h
    simp only [Bool.and_eq_true] at h
    cases hi : strToInt s with
    | none => rw [hi] at h; simp at h
    | some n => exact ⟨n, by simp [seedersVal, hs, hi]⟩

lemma apibayCandidate_wf_ok {t : TorRecord} (h : wellFormedRec t = true) :
    ∃ c, apibayCandidate t = Except.ok c := by
  obtain ⟨sd, hsd⟩ := seedersVal_wf_ok h
  unfold wellFormedRec at h
  simp only [Bool.and_eq_true, Option.isSome_iff_exists] at h
  obtain ⟨⟨⟨ih, hih⟩, nm, hnm⟩, _⟩ := h
  unfold apibayCandidate
  rw [hih, hnm, hsd]
  exact ⟨_, rfl⟩

lemma buildViable_wf_ok {payload : List TorRecord}
    (h : ∀ t ∈ payload, wellFormedRec t = true) :
    ∃ v, buildViable payload = Except.ok v := by
  induction payload with
  | nil => exact ⟨[], rfl⟩
  | cons t ts ih =>
    obtain ⟨v, hv⟩ := ih (fun u hu => h u (List.mem_cons_of_mem _ hu))
    obtain ⟨sd, hsd⟩ := seedersVal_wf_ok (h t (List.mem_cons_self _ _))
    obtain ⟨c, hc⟩ := apibayCandidate_wf_ok (h t (List.mem_cons_self _ _))
    unfold buildViable
    rw [hsd]
    dsimp only
    by_cases hge : MIN_SEEDERS_THRESHOLD ≤ sd
    · rw [if_pos hge, hc, hv]
      exact ⟨c :: v, rfl⟩
    · rw [if_neg hge, hv]
      exact ⟨v, rfl⟩

lemma ytsBuildMovie_wf_ok {m : YtsMovie} (h : m.title.isSome = true)
    (ts : List YtsTorrent) : ∃ v, ytsBuildMovie m ts = Except.ok v := by
  induction ts with
  | nil => exact ⟨[], rfl⟩
  | cons t ts ih =>
    obtain ⟨v, hv⟩ := ih
    obtain ⟨title, htitle⟩ := Option.isSome_iff_exists.mp h
    unfold ytsBuildMovie
    by_cases hge : MIN_SEEDERS_THRESHOLD ≤ t.seeds.getD 0
    · rw [if_pos hge]
      unfold ytsCandidateOf
      rw [htitle]
      dsimp only
      rw [hv]
      exact ⟨_, rfl⟩
    · rw [if_neg hge, hv]
      exact ⟨v, rfl⟩

lemma ytsBuild_wf_ok {movies : List YtsMovie}
    (h : ∀ m ∈ movies, m.title.isSome = true) :
    ∃ v, ytsBuild movies = Except.ok v := by
  induction movies with
  | nil => exact ⟨[], rfl⟩
  | cons m ms ih =>
    obtain ⟨v, hv⟩ := ih (fun u hu => h u (List.mem_cons_of_mem _ hu))
    obtain ⟨w, hw⟩ := ytsBuildMovie_wf_ok (h m (List.mem_cons_self _ _)) m.torrents
    unfold ytsBuild
    rw [hw, hv]
    exact ⟨w ++ v, rfl⟩

/-- C1 counterexample: six viable records, five with 10 seeders and one with
exactly the threshold value 5.  The at-threshold record passes the filter and
builds a candidate, yet that candidate is absent from the returned list
because of the 5-item cap. -/
theorem apibay_threshold_counterexample :
    get_torrents (HttpOutcome.ok samplePayload) = Except.ok sampleKept ∧
    sampleRec "5" ∈ samplePayload ∧
    seedersVal (sampleRec "5") = Except.ok MIN_SEEDERS_THRESHOLD ∧
    apibayCandidate (sampleRec "5") = Except.ok sampleCand5 ∧
    sampleCand5 ∉ sampleKept := by
  decide

/-- C1 amended: every candidate either provider fetch returns has at least the
threshold number of seeders (hence every strictly-below-threshold candidate is
excluded from the returned list), and an exactly-at-threshold record is never
removed by the threshold filter: its candidate is in the viable list the
comprehension builds — though the subsequent 5-item cap may still drop it from
the returned list. -/
theorem seeders_threshold_filter
    (resp : HttpOutcome (List TorRecord)) (respY : HttpOutcome (List YtsMovie))
    (L M : List Candidate) (payload : List TorRecord) (v : List Candidate)
    (t : TorRecord) (c : Candidate)
    (hL : get_torrents resp = Except.ok L)
    (hM : get_yts_torrents respY = Except.ok M)
    (hv : buildViable payload = Except.ok v) (ht : t ∈ payload)
    (hsd : seedersVal t = Except.ok MIN_SEEDERS_THRESHOLD)
    (hc : apibayCandidate t = Except.ok c) :
    (∀ x ∈ L, MIN_SEEDERS_THRESHOLD ≤ x.seeders) ∧
    (∀ x ∈ M, MIN_SEEDERS_THRESHOLD ≤ x.seeders) ∧
    c ∈ v := by
  refine ⟨?_, ?_, buildViable_mem hv ht hsd le_rfl hc⟩
  · intro x hx
    rcases get_torrents_ok_cases hL with hnil | ⟨p, viable, _, hbv, hLe⟩
    · subst hnil; simp at hx
    · subst hLe
      exact buildViable_seeders_ge hbv x ((take5_sorted_spec viable).2.1 x hx)
  · intro x hx
    rcases get_yts_torrents_ok_cases hM with hnil | ⟨ms, torrents, _, hbv, hMe⟩
    · subst hnil; simp at hx
    · subst hMe
      exact ytsBuild_seeders_ge hbv x ((take5_sorted_spec torrents).2.1 x hx)

/-- Witness for the amended C1 theorem: the at-threshold sample candidate is in
the viable list built from the sample payload. -/
theorem seeders_threshold_filter_witness : sampleCand5 ∈ sampleViable :=
  (seeders_threshold_filter (HttpOutcome.ok samplePayload)
    (HttpOutcome.ok [sampleYtsMovie]) sampleKept [sampleYtsCand] samplePayload
    sampleViable (sampleRec "5") sampleCand5 (by decide) (by decide) (by decide)
    (by decide) (by decide) (by decide)).2.2

/-- C4 counterexample: a payload whose record has 100 seeders but no info_hash
field makes get_torrents raise KeyError to its caller instead of returning a
list, and a YTS movie without a title field does the same for
get_yts_torrents. -/
theorem provider_fetch_raises_counterexample :
    get_torrents (HttpOutcome.ok [badApibayRecord]) = Except.error PyError.keyError ∧
    get_yts_torrents (HttpOutcome.ok [badYtsMovie]) = Except.error PyError.keyError := by
  decide

/-- C4 amended: every RequestException (HTTP error statuses, timeouts,
connection and JSON-decode failures) is absorbed into an empty candidate list,
but only network-level failures are: a successfully decoded payload whose
records are malformed (a viable apibay record missing info_hash or name, or a
YTS movie missing its title) raises an uncaught KeyError.  On payloads whose
records are well formed, both fetches return a list. -/
theorem provider_fetch_absorbs_network_errors
    (payload : List TorRecord) (movies : List YtsMovie) (status : Nat)
    (h1 : ∀ t ∈ payload, wellFormedRec t = true)
    (h2 : ∀ m ∈ movies, m.title.isSome = true) :
    get_torrents (HttpOutcome.httpError status) = Except.ok [] ∧
    get_torrents HttpOutcome.networkError = Except.ok [] ∧
    get_yts_torrents (HttpOutcome.httpError status) = Except.ok [] ∧
    get_yts_torrents HttpOutcome.networkError = Except.ok [] ∧
    (∃ L, get_torrents (HttpOutcome.ok payload) = Except.ok L) ∧
    (∃ M, get_yts_torrents (HttpOutcome.ok movies) = Except.ok M) := by
  refine ⟨rfl, rfl, rfl, rfl, ?_, ?_⟩
  · cases payload with
    | nil => exact ⟨[], rfl⟩
    | cons t0 ts =>
      obtain ⟨v, hv⟩ := buildViable_wf_ok h1
      unfold get_torrents apibayProcess
      dsimp only
      by_cases hid : (t0.id == some "0") = true
      · rw [if_pos hid]; exact ⟨[], rfl⟩
      · rw [if_neg hid, hv]
        exact ⟨_, rfl⟩
  · obtain ⟨w, hw⟩ := ytsBuild_wf_ok h2
    unfold get_yts_torrents
    dsimp only
    by_cases hemp : movies.isEmpty = true
    · rw [if_pos hemp]; exact ⟨[], rfl⟩
    · rw [if_neg hemp, hw]
      exact ⟨_, rfl⟩

/-- Witness for the amended C4 theorem at a well-formed payload and a 429
status. -/
theorem provider_fetch_absorbs_witness :
    get_torrents (HttpOutcome.httpError 429) = Except.ok [] :=
  (provider_fetch_absorbs_network_errors [sampleRec "10"] [sampleYtsMovie] 429
    (by decide) (by decide)).1

/-- C9: each provider fetch returns at most 5 candidates; the returned ones
all come from the viable (filtered) list, and every viable candidate left out
has a seeder count no larger than any returned one — the kept 5 are those
with the highest seeder counts. -/
theorem provider_fetch_cap5
    (payload : List TorRecord) (movies : List YtsMovie)
    (v w L M : List Candidate)
    (hv : buildViable payload = Except.ok v)
    (hL : get_torrents (HttpOutcome.ok payload) = Except.ok L)
    (hw : ytsBuild movies = Except.ok w)
    (hM : get_yts_torrents (HttpOutcome.ok movies) = Except.ok M) :
    (L.length ≤ 5 ∧ (∀ x ∈ L, x ∈ v) ∧
      ∀ x ∈ L, ∀ y ∈ v, y ∉ L → y.seeders ≤ x.seeders) ∧
    (M.length ≤ 5 ∧ (∀ x ∈ M, x ∈ w) ∧
      ∀ x ∈ M, ∀ y ∈ w, y ∉ M → y.seeders ≤ x.seeders) := by
  constructor
  · rcases get_torrents_ok_cases hL with hnil | ⟨p, viable, hresp, hbv, hLe⟩
    · subst hnil
      exact ⟨by simp, by simp, by simp⟩
    · cases hresp
      rw [hv] at hbv
      cases hbv
      subst hLe
      exact take5_sorted_spec v
  · rcases get_yts_torrents_ok_cases hM with hnil | ⟨ms, torrents, hresp, hbv, hMe⟩
    · subst hnil
      exact ⟨by simp, by simp, by simp⟩
    · cases hresp
      rw [hw] at hbv
      cases hbv
      subst hMe
      exact take5_sorted_spec w

/-- Witness for the C9 theorem at the six-record sample payload: the returned
list has (at most) five entries. -/
theorem provider_fetch_cap5_witness : sampleKept.length ≤ 5 :=
  (provider_fetch_cap5 samplePayload [sampleYtsMovie] sampleViable
    [sampleYtsCand] sampleKept [sampleYtsCand] (by decide) (by decide)
    (by decide) (by decide)).1.1

/-- C10: season 0 is treated as absent by get_torrents, so the query string is
the bare title whatever the episode argument is. -/
theorem getTorrentsQuery_season_zero (title : String) (episode : Option Nat) :
    getTorrentsQuery title (some 0) episode = title := by
  cases episode <;> simp [getTorrentsQuery, truthy]

/-- C5 counterexample: with season 0 present together with an episode, the code
produces the bare title, not the "S00E05"-tagged query the claim demands. -/
theorem getTorrentsQuery_counterexample :
    getTorrentsQuery "X" (some 0) (some 5) = "X" ∧
    specQuery "X" (some 0) (some 5) = "X S00E05" ∧
    getTorrentsQuery "X" (some 0) (some 5) ≠ specQuery "X" (some 0) (some 5) := by
  refine ⟨rfl, rfl, ?_⟩
  decide

/-- C5 amended: the documented query formats hold whenever the season and
episode values are nonzero; a zero season or zero episode is falsy in Python
and hence treated as absent. -/
theorem getTorrentsQuery_format (title : String) (s e : Nat)
    (hs : s ≠ 0) (he : e ≠ 0) :
    getTorrentsQuery title (some s) (some e)
      = title ++ " S" ++ pad2 s ++ "E" ++ pad2 e ∧
    getTorrentsQuery title (some s) none = title ++ " S" ++ pad2 s ∧
    getTorrentsQuery title none (some e) = title ∧
    getTorrentsQuery title none none = title ∧
    getTorrentsQuery title (some s) (some 0) = title ++ " S" ++ pad2 s ∧
    getTorrentsQuery title (some 0) (some e) = title := by
  have hs' : (s != 0) = true := by simpa using hs
  have he' : (e != 0) = true := by simpa using he
  refine ⟨?_, ?_, ?_, ?_, ?_, ?_⟩ <;>
    simp [getTorrentsQuery, truthy, hs', he']

/-- Witness for the amended C5 theorem at title "X", season 2, episode 5. -/
theorem getTorrentsQuery_format_witness :
    getTorrentsQuery "X" (some 2) (some 5) = "X" ++ " S" ++ pad2 2 ++ "E" ++ pad2 5 :=
  (getTorrentsQuery_format "X" 2 5 (by decide) (by decide)).1

/-- C2 counterexample: with an empty episode list for the current season but a
following season having episodes, the code returns no next episode while the
claimed resolution advances to (S+1, 1). -/
theorem fetch_next_episode_counterexample :
    fetch_next_episode [] [⟨2, 3⟩] 1 3 = none ∧
    specNextEpisode [] [⟨2, 3⟩] 1 3 = some (2, 1) ∧
    fetch_next_episode [] [⟨2, 3⟩] 1 3 ≠ specNextEpisode [] [⟨2, 3⟩] 1 3 := by
  decide

/-- C2 amended: whenever the current season's episode list is nonempty, the
code's next-episode resolution agrees with the spec's two-step lookup; an
empty episode list short-circuits to "no next episode" without consulting the
seasons list. -/
theorem fetch_next_episode_spec (episodes : List Episode) (seasons : List Season)
    (currentSeason currentEpisode : Nat) (h : episodes ≠ []) :
    fetch_next_episode episodes seasons currentSeason currentEpisode
      = specNextEpisode episodes seasons currentSeason currentEpisode := by
  have h' : episodes.isEmpty = false := by
    cases episodes with
    | nil => exact absurd rfl h
    | cons a l => rfl
  simp [fetch_next_episode, specNextEpisode, h']

/-- Witness for the amended C2 theorem: season 1 has episodes [1,2,3], current
episode 3, season 2 exists with 5 episodes, so both resolutions give (2, 1). -/
theorem fetch_next_episode_spec_witness :
    fetch_next_episode [⟨1⟩, ⟨2⟩, ⟨3⟩] [⟨1, 3⟩, ⟨2, 5⟩] 1 3
      = specNextEpisode [⟨1⟩, ⟨2⟩, ⟨3⟩] [⟨1, 3⟩, ⟨2, 5⟩] 1 3 :=
  fetch_next_episode_spec [⟨1⟩, ⟨2⟩, ⟨3⟩] [⟨1, 3⟩, ⟨2, 5⟩] 1 3 (by decide)

lemma yts_not_in_show_trace (title : String) (envAt : Nat → Nat → ShowEnv) :
    ∀ (fuel s e : Nat) (q : String),
      ProviderQuery.yts q ∉ playShowQueries title envAt fuel s e := by
  intro fuel
  induction fuel with
  | zero =>
    intro s e q
    simp [playShowQueries]
  | succ n ihn =>
    intro s e q hmem
    unfold playShowQueries at hmem
    rcases List.mem_cons.mp hmem with heq | hmem2
    · exact ProviderQuery.noConfusion heq
    · cases hstep : showStep s e (envAt s e) with
      | next s2 e2 =>
        rw [hstep] at hmem2
        exact ihn s2 e2 q hmem2
      | stop =>
        rw [hstep] at hmem2
        simp at hmem2

/-- C3: for a movie whose primary (apibay) fetch returned no candidates, the
secondary (YTS) provider is queried exactly once, with the same title; the
show branch of play_content never queries the secondary provider, whatever
the oracles do. -/
theorem yts_fallback_policy (title : String) (env : MovieEnv)
    (h : env.apibayResult = []) :
    (playMovieQueries title env).filter isYts = [ProviderQuery.yts title] ∧
    ∀ (fuel s e : Nat) (envAt : Nat → Nat → ShowEnv) (q : String),
      ProviderQuery.yts q ∉ playShowQueries title envAt fuel s e := by
  constructor
  · obtain ⟨ar, yr, pa, py, la, ly⟩ := env
    simp only at h
    subst h
    simp [playMovieQueries, isYts, List.filter]
  · exact fun fuel s e envAt q => yts_not_in_show_trace title envAt fuel s e q

/-- Witness for the C3 theorem: with an empty apibay result the movie trace
contains exactly one YTS query for the same title, and a sample show trace
contains no YTS query. -/
theorem yts_fallback_policy_witness :
    (playMovieQueries "X" sampleMovieEnv).filter isYts = [ProviderQuery.yts "X"] ∧
    ProviderQuery.yts "X" ∉ playShowQueries "X" (fun _ _ => sampleShowEnv) 3 1 1 := by
  have h := yts_fallback_policy "X" sampleMovieEnv rfl
  exact ⟨h.1, h.2 3 1 1 (fun _ _ => sampleShowEnv) "X"⟩

/-- C6 (the source has no Scoring Engine, so quality is modelled from the
spec): a name containing "2160p" scores quality 1.0, a name containing
"1080p" but neither "4k" nor "2160p" scores 0.8, and the former never scores
lower than the latter. -/
theorem quality_monotone (n1 n2 : String)
    (h1 : containsTok n1 "2160p" = true)
    (h2 : containsTok n2 "1080p" = true)
    (h3 : containsTok n2 "4k" = false)
    (h4 : containsTok n2 "2160p" = false) :
    quality n1 = 1 ∧ quality n2 = 0.8 ∧ quality n2 ≤ quality n1 := by
  have e1 : quality n1 = 1 := by
    unfold quality
    rw [h1]
    simp
  have e2 : quality n2 = 0.8 := by
    unfold quality
    rw [h2, h3, h4]
    simp
  refine ⟨e1, e2, ?_⟩
  rw [e1, e2]
  norm_num

/-- Witness for the C6 theorem at two concrete release names. -/
theorem quality_monotone_witness :
    quality "The.Matrix.2160p.REMUX" = 1 ∧
    quality "Matrix.1999.1080p" = 0.8 ∧
    quality "Matrix.1999.1080p" ≤ quality "The.Matrix.2160p.REMUX" :=
  quality_monotone "The.Matrix.2160p.REMUX" "Matrix.1999.1080p"
    (by decide) (by decide) (by decide) (by decide)

/-- C7 counterexample: when the transport answers the primary provider with a
transient 429 status on every attempt, the fetch still issues exactly one
request — there is no retry, let alone three attempts. -/
theorem apibay_no_retry_counterexample :
    (apibayFetch (fun _ => HttpOutcome.httpError 429)).2 = 1 ∧
    ¬ 2 ≤ (apibayFetch (fun _ => HttpOutcome.httpError 429)).2 := by
  constructor
  · rfl
  · decide

/-- C7 amended: every fetch — the primary provider, the secondary provider,
and the two catalog calls — issues exactly one HTTP request per invocation,
whatever the transport answers; transient statuses are absorbed as empty
results without a second attempt. -/
theorem single_request_per_fetch
    (t1 : Nat → HttpOutcome (List TorRecord))
    (t2 : Nat → HttpOutcome (List YtsMovie))
    (t3 : Nat → HttpOutcome (List Season))
    (t4 : Nat → HttpOutcome (List Episode)) (status : Nat) :
    (apibayFetch t1).2 = 1 ∧ (ytsFetch t2).2 = 1 ∧
    (fetch_show_seasons_http t3).2 = 1 ∧ (fetch_season_episodes_http t4).2 = 1 ∧
    (apibayFetch (fun _ => HttpOutcome.httpError status)).1 = Except.ok [] ∧
    (ytsFetch (fun _ => HttpOutcome.httpError status)).1 = Except.ok [] :=
  ⟨rfl, rfl, rfl, rfl, rfl, rfl⟩

/-- C8 counterexample: a torrent is found and picked, the launch raises
FileNotFoundError (peerflix/player toolchain missing), episode 4 exists and
the user answers yes — the sequencer advances to episode 4 instead of
terminating the session. -/
theorem missing_executable_counterexample :
    showStep 1 3 sampleShowEnv = StepOutcome.next 1 4 ∧
    StepOutcome.next 1 4 ≠ StepOutcome.stop := by
  constructor
  · rfl
  · decide

/-- C8 amended: in the show flow a missing launcher executable is non-fatal
and handled exactly like a CalledProcessError: both fall through to
next-episode resolution (with the decline-by-default prompt) instead of
terminating the session immediately. -/
theorem missing_executable_nonfatal (season episode : Nat)
    (ts : List Candidate) (pk : Option Candidate) (eps : List Episode)
    (ss : List Season) (a1 a2 : Bool) :
    showStep season episode ⟨ts, pk, LaunchResult.missingExecutable, eps, ss, a1, a2⟩ =
    showStep season episode ⟨ts, pk, LaunchResult.processError, eps, ss, a1, a2⟩ := by
  unfold showStep
  cases ts with
  | nil => rfl
  | cons c cs =>
    cases pk with
    | none => rfl
    | some p => rfl

end MovieTrend
